import Mathlib

/-!
Shallow embedding of the core of `src/wfmarkettool.py` (class `WFMarketTool`)
together with the data model of `src/required_types.py` and the result models
of `src/fastapi_models.py`.

Conventions of the embedding:
* Python `dict.get(key)` on an optional field becomes an `Option` field.
* Python exceptions (`raise`) become `Except String` results; log warnings
  (`logger.warning` / `logging.warning`) are modelled explicitly as a list of
  `LogWarning` values returned alongside the result (log `info` calls carry no
  observable content for the claims and are elided).
* The aiohttp transport is modelled by passing the `HttpResponse` a GET would
  observe; `await` points disappear (the rate limiter's counter is threaded
  explicitly as state).
* Fields of the TypedDicts that no modelled function reads (`reputation`,
  `locale`, timestamps, localizations, ...) are elided.
-/

namespace WFMT

/-- `required_types.Status` is a `StrEnum`: `auto()` gives the lower-cased
member name as value.  The raw JSON field is a string, so the embedded
`status` field is a `String` and these are the recognized values. -/
def Status.INGAME : String := "ingame"

def Status.OFFLINE : String := "offline"

def Status.ONLINE : String := "online"

/-- `required_types.OrderType` (`StrEnum`). -/
inductive OrderType where
  | buy
  | sell
deriving DecidableEq, Repr

/-- `OrderType.value` of the Python `StrEnum`. -/
def OrderType.value : OrderType → String
  | .buy => "buy"
  | .sell => "sell"

/-- `required_types.WFToolOperations` (`StrEnum`). -/
inductive WFToolOperations where
  | item_orders
  | profile_orders
deriving DecidableEq, Repr

/-- `required_types.User` (only the field the tool reads).  `status` is
`Option String`: `user.get("status")` may be `None`, and the raw value is an
arbitrary string that need not be a recognized `Status`. -/
structure User where
  status : Option String
deriving DecidableEq, Repr

/-- `required_types.Item` (only the field the tool reads). -/
structure Item where
  url_name : String
deriving DecidableEq, Repr

/-- `required_types.Order` (fields the tool reads).  `platinum : Option Int`
models "the `platinum` key is present and `type(plat) is int`"; an absent key
or a non-int value are both `none`.  `order_type` is the raw string compared
against `OrderType.value`. -/
structure Order where
  id : String
  platinum : Option Int := none
  order_type : Option String := none
  visible : Option Bool := none
deriving DecidableEq, Repr

/-- `required_types.ItemOrder`: an `Order` plus an optional embedded `User`. -/
structure ItemOrder extends Order where
  user : Option User := none
deriving DecidableEq, Repr

/-- `required_types.ProfileOrder`: an `Order` plus an optional embedded `Item`. -/
structure ProfileOrder extends Order where
  item : Option Item := none
deriving DecidableEq, Repr

/-- `required_types.Payload` (`total=False`: every key optional). -/
structure Payload where
  orders : Option (List ItemOrder) := none
  sell_orders : Option (List ProfileOrder) := none
  buy_orders : Option (List ProfileOrder) := none
deriving DecidableEq, Repr

/-- The empty dict `{}` returned by `_get_payload` on its failure path. -/
def Payload.empty : Payload := {}

/-- `required_types.WFMarketResponse` (`total=False`). -/
structure WFMarketResponse where
  payload : Option Payload := none
deriving DecidableEq, Repr

/-- `fastapi_models.FloorPriceResult`. -/
structure FloorPriceResult where
  item_name : String
  prices : List Int
deriving DecidableEq, Repr

/-- `fastapi_models.ProfileOrderOptimzerResult` — a pydantic `BaseModel`
whose `listed_price : Platinum` (= `int`) is REQUIRED: constructing it from
`profile_order.get("platinum")` raises a pydantic `ValidationError` when the
key is absent (modelled as the `Except` error in `verify_loop`). -/
structure ProfileOrderOptimzerResult where
  item_name : String
  listed_price : Int
  floor_prices : List Int
deriving DecidableEq, Repr

/-- What one HTTP GET observes: the status code and the decoded JSON body
(`result.json()`), `none` when the body decodes to `None`. -/
structure HttpResponse where
  status : Nat
  body : Option WFMarketResponse := none
deriving DecidableEq, Repr

/-- The observable diagnostics (`logger.warning` / `logging.warning`) the
modelled functions emit, in emission order. -/
inductive LogWarning where
  /-- `wfmarkettool.py:168` — expected http status 200, got `code`. -/
  | badStatus (code : Nat)
  /-- `wfmarkettool.py:170` — failed to acquire the operation's target. -/
  | failedAcquire
  /-- `wfmarkettool.py:209` — order with id `id` is invalid (no order_type). -/
  | invalidOrder (id : String)
  /-- `wfmarkettool.py:202` — unsupported status type found in order id `id`. -/
  | unsupportedStatus (id : String)
  /-- `wfmarkettool.py:235` — order `id` has no platinum key. -/
  | noPlatinum (id : String)
  /-- `wfmarkettool.py:256` / `:303` — unable to get orders from payload None. -/
  | payloadNone
  /-- `wfmarkettool.py:261` — failed to acquire item orders of the item. -/
  | noOrdersKey
deriving DecidableEq, Repr

/-! ### Rate limiter (`_check_request_time_valid`, `_request_timer_update`) -/

/-- `WFMarketTool._REQUEST_LIMIT` (`wfmarkettool.py:40`). -/
def REQUEST_LIMIT : Nat := 3

/-- `_check_request_time_valid` (`wfmarkettool.py:96-109`), with the
lock-protected `request_counter` threaded explicitly: returns the boolean
result and the counter after the call.  The lock makes the check-and-increment
atomic, so the sequential function is the faithful model of one admitted
critical section. -/
def tryAdmit (request_counter : Nat) : Bool × Nat :=
  if request_counter ≥ REQUEST_LIMIT then
    (false, request_counter)
  else
    (true, request_counter + 1)

/-- The results of `n` consecutive `tryAdmit` calls starting from counter
value `c`, with no intervening reset (`_request_timer_update` sets the counter
back to `0` once per second; between two resets only `tryAdmit` touches it). -/
def runAdmits (c : Nat) : Nat → List Bool
  | 0 => []
  | n + 1 =>
    let r := tryAdmit c
    r.1 :: runAdmits r.2 n

/-! ### Name processing and URL building (`_process_name`, `_get_payload`) -/

/-- Python `str.strip(" \n")`: drop spaces and newlines from both ends. -/
def pyStrip (s : String) : String :=
  let f : Char → Bool := fun c => c = ' ' ∨ c = '\n'
  String.mk (((s.data.dropWhile f).reverse.dropWhile f).reverse)

/-- Python `str.replace(" ", "_")` — a single-character pattern, so it is the
character-wise substitution. -/
def replaceSpaces (s : String) : String :=
  String.mk (s.data.map fun c => if c = ' ' then '_' else c)

/-- Python `str.lower()` (ASCII range; the names involved are ASCII). -/
def pyLower (s : String) : String :=
  String.mk (s.data.map Char.toLower)

/-- `_process_name` (`wfmarkettool.py:111-120`).  Note the source assigns the
stripped string to `ret` and then immediately reassigns
`ret = item_name.replace(" ", "_")` from the ORIGINAL `item_name`, discarding
the strip.  The embedding reproduces that faithfully. -/
def process_name (item_name : String) : String :=
  let _ret := pyStrip item_name
  let ret := replaceSpaces item_name
  ret

/-- `WFMarketTool._ENDPOINT` (`wfmarkettool.py:39`). -/
def ENDPOINT : String := "https://api.warframe.market/v1"

/-- The `target_url` built by `_get_payload` (`wfmarkettool.py:141-150`):
item-orders lower-cases the processed name, profile-orders preserves case. -/
def target_url (operation : WFToolOperations) (target_name : String) : String :=
  let name := process_name target_name
  match operation with
  | .item_orders => ENDPOINT ++ "/items/" ++ pyLower name ++ "/orders"
  | .profile_orders => ENDPOINT ++ "/profile/" ++ name ++ "/orders"

/-- The response-handling tail of `_get_payload` (`wfmarkettool.py:158-171`),
as a function of the observed `HttpResponse` (the rate-limit retry loop at
lines 136-139 only delays the single GET; it is the only retry in the
function — a non-200 status is never retried, the code falls through to
`return {}`). -/
def get_payload (resp : HttpResponse) : Option Payload × List LogWarning :=
  if resp.status = 200 then
    match resp.body with
    | some response => (response.payload, [])
    | none => (some Payload.empty, [.failedAcquire])
  else
    (some Payload.empty, [.badStatus resp.status, .failedAcquire])

/-! ### Item-order filtering (`_filter_item_orders`) -/

/-- `remove_non_in_game` (`wfmarkettool.py:189-204`): `Except` for the
`raise` on a missing user or missing status, the `Bool` filter verdict, and
the warning emitted on an unrecognized status value. -/
def remove_non_in_game (order : ItemOrder) : Except String Bool × List LogWarning :=
  match order.user with
  | some user =>
    match user.status with
    | some status =>
      if status = Status.INGAME then (.ok true, [])
      else if status = Status.ONLINE then (.ok false, [])
      else if status = Status.OFFLINE then (.ok false, [])
      else (.ok false, [.unsupportedStatus order.id])
    | none => (.error ("order " ++ order.id ++ " has no user key"), [])
  | none => (.error ("order " ++ order.id ++ " has no user key"), [])

/-- `filter_func` (`wfmarkettool.py:206-214`). -/
def filter_func (key_order_type : OrderType) (order : ItemOrder) :
    Except String Bool × List LogWarning :=
  match order.order_type with
  | none => (.ok false, [.invalidOrder order.id])
  | some t =>
    if t = key_order_type.value then remove_non_in_game order
    else (.ok false, [])

/-- `_filter_item_orders` (`wfmarkettool.py:176-216`):
`list(filter(filter_func, orders))` evaluates the predicate left to right; an
exception aborts the whole call, keeping the warnings logged before it. -/
def filter_item_orders (orders : List ItemOrder) (key_order_type : OrderType) :
    Except String (List ItemOrder) × List LogWarning :=
  match orders with
  | [] => (.ok [], [])
  | o :: rest =>
    match filter_func key_order_type o with
    | (.error e, ws) => (.error e, ws)
    | (.ok b, ws) =>
      match filter_item_orders rest key_order_type with
      | (.error e, ws') => (.error e, ws ++ ws')
      | (.ok r, ws') => (.ok (if b then o :: r else r), ws ++ ws')

/-! ### Price extraction (`_get_plat_prices`) -/

/-- The collection loop of `_get_plat_prices` (`wfmarkettool.py:229-235`):
keep `order.get("platinum")` when `type(plat) is Platinum` (= `int`), warn
otherwise.  NOTE: the source checks only that the value is an `int`; there is
no sign check. -/
def collect_prices (orders : List Order) : List Int × List LogWarning :=
  match orders with
  | [] => ([], [])
  | o :: rest =>
    let r := collect_prices rest
    match o.platinum with
    | some plat => (plat :: r.1, r.2)
    | none => (r.1, .noPlatinum o.id :: r.2)

/-- `_get_plat_prices` (`wfmarkettool.py:218-242`): collect, then
`prices.sort(reverse=True)` or `prices.sort()`. -/
def get_plat_prices (orders : List Order) (sort_descending : Bool := false) :
    List Int × List LogWarning :=
  let r := collect_prices orders
  if sort_descending then (r.1.insertionSort (· ≥ ·), r.2)
  else (r.1.insertionSort (· ≤ ·), r.2)

/-! ### Item orders and floor prices (`get_item_orders`, `get_item_floor_prices`) -/

/-- `get_item_orders` (`wfmarkettool.py:244-264`) as a function of the
`HttpResponse` the underlying GET observes. -/
def get_item_orders (resp : HttpResponse) (order_type : OrderType := .sell) :
    Except String (List ItemOrder) × List LogWarning :=
  match get_payload resp with
  | (none, ws) => (.ok [], ws ++ [.payloadNone])
  | (some payload, ws) =>
    match payload.orders with
    | none => (.ok [], ws ++ [.noOrdersKey])
    | some orders =>
      let r := filter_item_orders orders order_type
      (r.1, ws ++ r.2)

/-- `get_item_floor_prices` (`wfmarkettool.py:266-279`): sell orders, then
ascending plat prices, then `plat_prices[:order_count]`. -/
def get_item_floor_prices (resp : HttpResponse) (item_name : String)
    (order_count : Nat := 5) : Except String FloorPriceResult × List LogWarning :=
  match get_item_orders resp .sell with
  | (.error e, ws) => (.error e, ws)
  | (.ok sell_orders, ws) =>
    let r := get_plat_prices (sell_orders.map (·.toOrder)) false
    (.ok ⟨item_name, r.1.take order_count⟩, ws ++ r.2)

/-! ### Profile orders (`get_profile_orders`, `verify_profile_orders_prices`) -/

/-- `get_profile_orders` (`wfmarkettool.py:300-314`). -/
def get_profile_orders (resp : HttpResponse) (order_type : OrderType := .sell) :
    List ProfileOrder × List LogWarning :=
  match get_payload resp with
  | (none, ws) => ([], ws ++ [.payloadNone])
  | (some payload, ws) =>
    let ret := match order_type with
      | .sell => payload.sell_orders
      | .buy => payload.buy_orders
    (ret.getD [], ws)

/-- `filter_visibility` (`wfmarkettool.py:337-339`): `True if visibility else
False` on `order.get("visible")`. -/
def filter_visibility (order : ProfileOrder) : Bool :=
  order.visible.getD false

/-- The per-order loop of `verify_profile_orders_prices`
(`wfmarkettool.py:346-362`).  `item_responses` models the transport: the
`HttpResponse` the nested `get_item_floor_prices` GET observes for each
`url_name`.  A profile order with no `item` key raises, and the
`ProfileOrderOptimzerResult` construction at line 356-362 raises a pydantic
`ValidationError` when `profile_order.get("platinum")` is `None` (the model
requires an `int`), after that order's floor-price fetch. -/
def verify_loop (item_responses : String → HttpResponse) (order_count : Nat) :
    List ProfileOrder → Except String (List ProfileOrderOptimzerResult) × List LogWarning
  | [] => (.ok [], [])
  | o :: rest =>
    match o.item with
    | none => (.error "profile order with no item key encountered", [])
    | some item_details =>
      match get_item_floor_prices (item_responses item_details.url_name)
          item_details.url_name order_count with
      | (.error e, ws) => (.error e, ws)
      | (.ok fpr, ws) =>
        match o.platinum with
        | none => (.error "pydantic ValidationError: listed_price must be an int", ws)
        | some listed_price =>
          match verify_loop item_responses order_count rest with
          | (.error e, ws') => (.error e, ws ++ ws')
          | (.ok rs, ws') =>
            (.ok (⟨item_details.url_name, listed_price, fpr.prices⟩ :: rs), ws ++ ws')

/-- `verify_profile_orders_prices` (`wfmarkettool.py:316-364`). -/
def verify_profile_orders_prices (profile_resp : HttpResponse)
    (item_responses : String → HttpResponse) (order_type : OrderType := .sell)
    (order_count : Nat := 5) (visible_only : Bool := true) :
    Except String (List ProfileOrderOptimzerResult) × List LogWarning :=
  let r0 := get_profile_orders profile_resp order_type
  let profile_orders := if visible_only then r0.1.filter filter_visibility else r0.1
  let r := verify_loop item_responses order_count profile_orders
  (r.1, r0.2 ++ r.2)

end WFMT

namespace WFMT

/-! ### Derived characterizations used by the theorems -/

/-- The pure selection predicate `_filter_item_orders` implements on a
well-formed order: keep iff the order type matches and the seller is in game. -/
def keeps (key_order_type : OrderType) (o : ItemOrder) : Bool :=
  o.order_type = some key_order_type.value &&
    match o.user with
    | some user => user.status = some Status.INGAME
    | none => false

/-- Well-formedness for the filter: every order whose type matches the wanted
type carries a user with a status, so `remove_non_in_game` never raises. -/
def well_formed_for_filter (key_order_type : OrderType) (orders : List ItemOrder) : Bool :=
  orders.all fun o =>
    if o.order_type = some key_order_type.value then
      match o.user with
      | some user => user.status.isSome
      | none => false
    else true

/-- The response of a successful item-orders GET whose payload carries
exactly `orders`. -/
def mk_item_resp (orders : List ItemOrder) : HttpResponse :=
  ⟨200, some ⟨some { orders := some orders }⟩⟩

/-- The ascending extracted price list of the kept sell orders — what
`get_item_floor_prices` truncates to `order_count` entries. -/
def sorted_sell_prices (orders : List ItemOrder) : List Int :=
  (((orders.filter (keeps .sell)).map (·.toOrder)).filterMap
    (·.platinum)).insertionSort (· ≤ ·)

/-- The profile-order list `verify_profile_orders_prices` iterates over:
the fetched orders, visibility-filtered when requested. -/
def processed_profile_orders (profile_resp : HttpResponse) (order_type : OrderType)
    (visible_only : Bool) : List ProfileOrder :=
  let r0 := get_profile_orders profile_resp order_type
  if visible_only then r0.1.filter filter_visibility else r0.1

/-- The floor-price list the optimizer obtains for one item name. -/
def floor_prices_of (item_responses : String → HttpResponse) (n : Nat) (name : String) :
    Except String (List Int) :=
  ((get_item_floor_prices (item_responses name) name n).1).map (·.prices)

/-- The result `verify_profile_orders_prices` appends for one profile order
that carries an item reference and a listed platinum price (the defaults are
never reached under `item_fetch_ok`). -/
def result_for (item_responses : String → HttpResponse) (n : Nat)
    (o : ProfileOrder) : ProfileOrderOptimzerResult :=
  match o.item with
  | some item_details =>
    ⟨item_details.url_name, o.platinum.getD 0,
      (floor_prices_of item_responses n item_details.url_name).toOption.getD []⟩
  | none => ⟨"", 0, []⟩

/-- The profile order carries an item and a listed platinum price (pydantic
rejects a missing one) and its floor-price fetch succeeds. -/
def item_fetch_ok (item_responses : String → HttpResponse) (n : Nat)
    (o : ProfileOrder) : Bool :=
  match o.item, o.platinum with
  | some item_details, some _ =>
    (floor_prices_of item_responses n item_details.url_name).isOk
  | _, _ => false

/-! ### Rate limiter: claim C1 -/

lemma count_runAdmits_le (n c : Nat) :
    (runAdmits c n).count true ≤ REQUEST_LIMIT - c := by
  induction n generalizing c with
  | zero => simp [runAdmits]
  | succ n ih =>
    by_cases h : c ≥ REQUEST_LIMIT
    · have hall : runAdmits c (n + 1) = false :: runAdmits c n := by
        simp [runAdmits, tryAdmit, h]
      rw [hall, List.count_cons]
      simpa using ih c
    · have hstep : runAdmits c (n + 1) = true :: runAdmits (c + 1) n := by
        simp [runAdmits, tryAdmit, h]
      rw [hstep]
      simp only [List.count_cons, beq_self_eq_true, if_true]
      have h2 := ih (c + 1)
      simp only [REQUEST_LIMIT] at h2 h ⊢
      omega

/-- C1: between two consecutive resets of the request counter (which set it
to 0) at most `REQUEST_LIMIT = 3` of the `_check_request_time_valid` calls
return `true`; a successful call increments the counter by exactly one, and a
denied call returns `false` leaving the counter unchanged. -/
theorem C1_rate_limit (n c : Nat) :
    (runAdmits 0 n).count true ≤ REQUEST_LIMIT
    ∧ ((tryAdmit c).1 = true → (tryAdmit c).2 = c + 1)
    ∧ ((tryAdmit c).1 = false → (tryAdmit c).2 = c) := by
  refine ⟨by simpa using count_runAdmits_le n 0, ?_, ?_⟩ <;>
    · intro h
      by_cases hc : c ≥ REQUEST_LIMIT <;> simp [tryAdmit, hc] at h ⊢

/-- Witness for C1 at a concrete run of five attempts and concrete counters. -/
theorem C1_rate_limit_witness :
    (runAdmits 0 5).count true ≤ REQUEST_LIMIT
    ∧ (tryAdmit 1).2 = 1 + 1 ∧ (tryAdmit 3).2 = 3 :=
  ⟨(C1_rate_limit 5 0).1, (C1_rate_limit 5 1).2.1 (by decide),
    (C1_rate_limit 5 3).2.2 (by decide)⟩

end WFMT

namespace WFMT

/-! ### Payload fetch failure path: claim C2 -/

/-- C2 counterexample: on HTTP 404 `_get_payload` returns the EMPTY payload
`{}` (together with two log warnings), not an error tagged with the status,
and `get_item_floor_prices` then returns a successful result with an empty
price list instead of surfacing a transport error. -/
theorem C2_counterexample :
    get_payload ⟨404, none⟩
      = (some Payload.empty, [.badStatus 404, .failedAcquire])
    ∧ (get_item_floor_prices ⟨404, none⟩ "catalyzing_shields" 5).1
      = .ok ⟨"catalyzing_shields", []⟩
    ∧ ((get_item_floor_prices ⟨404, none⟩ "catalyzing_shields" 5).1).isOk
      = true := by
  exact ⟨rfl, rfl, rfl⟩

/-- C2 amended: for every fetch observing a status other than 200, the fetch
emits a bad-status warning carrying the observed code and returns the empty
payload `{}` (the only retry in `_get_payload` is the rate-limit path, which
precedes the GET); `get_item_floor_prices` consequently returns a successful
empty price list, not an error. -/
theorem C2_amended (resp : HttpResponse) (name : String) (n : Nat)
    (h : resp.status ≠ 200) :
    get_payload resp
      = (some Payload.empty, [.badStatus resp.status, .failedAcquire])
    ∧ (get_item_floor_prices resp name n).1 = .ok ⟨name, []⟩ := by
  have h1 : get_payload resp
      = (some Payload.empty, [.badStatus resp.status, .failedAcquire]) := by
    simp [get_payload, h]
  refine ⟨h1, ?_⟩
  simp [get_item_floor_prices, get_item_orders, h1, Payload.empty,
    get_plat_prices, collect_prices]

/-- Witness for C2 amended at a concrete 404 response. -/
theorem C2_amended_witness :
    get_payload ⟨404, none⟩
      = (some Payload.empty, [.badStatus 404, .failedAcquire])
    ∧ (get_item_floor_prices ⟨404, none⟩ "x" 5).1 = .ok ⟨"x", []⟩ :=
  C2_amended ⟨404, none⟩ "x" 5 (by decide)

/-! ### Name normalization: claim C7 -/

/-- C7: the code slip in `_process_name`.  The stripped value is computed and
immediately discarded (`ret` is reassigned from the original `item_name`), so
surrounding whitespace is NOT stripped — the leading space of
`" catalyzing shields"` survives as a leading underscore — contradicting both
the claim and the function's own docstring ("Removes trailing characters").
The other halves of the claim do hold: item-orders URLs lower-case the name
and profile-orders URLs preserve its case. -/
theorem C7_strip_discarded :
    process_name " catalyzing shields" = "_catalyzing_shields"
    ∧ pyStrip " catalyzing shields" = "catalyzing shields"
    ∧ process_name " catalyzing shields"
        ≠ replaceSpaces (pyStrip " catalyzing shields")
    ∧ target_url .item_orders "Catalyzing Shields"
        = "https://api.warframe.market/v1/items/catalyzing_shields/orders"
    ∧ target_url .profile_orders "UserName"
        = "https://api.warframe.market/v1/profile/UserName/orders" := by
  refine ⟨rfl, rfl, by decide, ?_, rfl⟩
  decide

end WFMT

namespace WFMT

/-! ### Item-order filter lemmas (shared by C3, C4, C5, C10) -/

lemma filter_func_keeps (t : OrderType) (o : ItemOrder)
    (h : (if o.order_type = some t.value then
            match o.user with
            | some user => user.status.isSome
            | none => false
          else true) = true) :
    (filter_func t o).1 = .ok (keeps t o) := by
  rcases ho : o.order_type with _ | s
  · simp [filter_func, keeps, ho]
  · rw [ho] at h
    by_cases hs : s = t.value
    · subst hs
      rcases hu : o.user with _ | u
      · simp [hu] at h
      · rcases hst : u.status with _ | st
        · simp [hu, hst] at h
        · by_cases h1 : st = Status.INGAME
          · simp [filter_func, remove_non_in_game, keeps, ho, hu, hst, h1,
              Status.INGAME, Status.ONLINE, Status.OFFLINE]
          · by_cases h2 : st = Status.ONLINE
            · simp [filter_func, remove_non_in_game, keeps, ho, hu, hst, h1, h2,
                Status.INGAME, Status.ONLINE, Status.OFFLINE]
            · by_cases h3 : st = Status.OFFLINE
              · simp [filter_func, remove_non_in_game, keeps, ho, hu, hst, h1, h2, h3,
                  Status.INGAME, Status.ONLINE, Status.OFFLINE]
              · simp [filter_func, remove_non_in_game, keeps, ho, hu, hst, h1, h2, h3]
    · simp [filter_func, keeps, ho, hs]

lemma filter_item_orders_wf (t : OrderType) (orders : List ItemOrder)
    (h : well_formed_for_filter t orders = true) :
    (filter_item_orders orders t).1 = .ok (orders.filter (keeps t)) := by
  induction orders with
  | nil => simp [filter_item_orders]
  | cons o rest ih =>
    rw [well_formed_for_filter, List.all_cons, Bool.and_eq_true] at h
    obtain ⟨h1, h2⟩ := h
    have hf := filter_func_keeps t o h1
    have ihr := ih (by rw [well_formed_for_filter]; exact h2)
    rcases hfo : filter_func t o with ⟨f1, ws⟩
    rw [hfo] at hf
    simp only at hf
    subst hf
    rcases hr : filter_item_orders rest t with ⟨r1, ws'⟩
    rw [hr] at ihr
    simp only at ihr
    subst ihr
    by_cases hk : keeps t o = true <;>
      simp [filter_item_orders, hfo, hr, List.filter_cons, hk]

lemma filter_item_orders_skip (t : OrderType) (o : ItemOrder)
    (pre post : List ItemOrder) (hok : (filter_func t o).1 = .ok false) :
    (filter_item_orders (pre ++ o :: post) t).1
      = (filter_item_orders (pre ++ post) t).1 := by
  induction pre with
  | nil =>
    simp only [List.nil_append]
    rcases hfo : filter_func t o with ⟨f1, ws⟩
    rw [hfo] at hok
    simp only at hok
    subst hok
    rcases hp : filter_item_orders post t with ⟨r1, ws'⟩
    cases r1 <;> simp [filter_item_orders, hfo, hp]
  | cons p pre ih =>
    simp only [List.cons_append]
    rcases hfp : filter_func t p with ⟨f1, ws⟩
    cases f1 with
    | error e => simp [filter_item_orders, hfp]
    | ok b =>
      rcases h1 : filter_item_orders (pre ++ o :: post) t with ⟨r1, w1⟩
      rcases h2 : filter_item_orders (pre ++ post) t with ⟨r2, w2⟩
      have hr : r1 = r2 := by
        rw [h1, h2] at ih
        simpa using ih
      subst hr
      cases r1 <;> simp [filter_item_orders, hfp, h1, h2]

lemma filter_item_orders_warn (t : OrderType) (o : ItemOrder)
    (pre post : List ItemOrder) (w : LogWarning)
    (hw : w ∈ (filter_func t o).2)
    (hpre : ((filter_item_orders pre t).1).isOk = true) :
    w ∈ (filter_item_orders (pre ++ o :: post) t).2 := by
  induction pre with
  | nil =>
    rcases hfo : filter_func t o with ⟨f1, ws⟩
    rw [hfo] at hw
    simp only at hw
    cases f1 with
    | error e => simpa [filter_item_orders, hfo] using hw
    | ok b =>
      rcases hp : filter_item_orders post t with ⟨r1, w1⟩
      cases r1 <;> simp [filter_item_orders, hfo, hp, hw]
  | cons p pre ih =>
    rcases hfp : filter_func t p with ⟨f1, ws⟩
    cases f1 with
    | error e => simp [filter_item_orders, hfp, Except.toBool] at hpre
    | ok b =>
      rcases hpr : filter_item_orders pre t with ⟨rp, wp⟩
      cases rp with
      | error e => simp [filter_item_orders, hfp, hpr, Except.toBool] at hpre
      | ok rpl =>
        have hih := ih (by simp [hpr, Except.toBool])
        rcases h1 : filter_item_orders (pre ++ o :: post) t with ⟨r1, w1⟩
        rw [h1] at hih
        simp only at hih
        cases r1 <;> simp [filter_item_orders, hfp, h1, List.mem_append, hih]

end WFMT

namespace WFMT

/-! ### Claim C5: the item filter is the order-preserving subsequence -/

/-- C5: for every order list whose type-matching orders are well formed (the
presupposed shape: each carries a seller with a status), `_filter_item_orders`
returns exactly `List.filter (keeps t)` of its input — the subsequence, in
original relative order, of orders whose `order_type` equals the wanted type
and whose seller status is `ingame`; `online`/`offline` sellers fail `keeps`
and are excluded, and no sorting happens (`List.filter` only ever drops
elements). -/
theorem C5_filter_subsequence (orders : List ItemOrder) (t : OrderType)
    (h : well_formed_for_filter t orders = true) :
    (filter_item_orders orders t).1 = .ok (orders.filter (keeps t)) :=
  filter_item_orders_wf t orders h

/-- Witness for C5: a sell+ingame order is kept; the same-priced sell+online
and a buy+ingame order are dropped. -/
theorem C5_filter_subsequence_witness :
    well_formed_for_filter .sell
        [({ id := "a", platinum := some 12, order_type := some "sell",
            user := some ⟨some "ingame"⟩ } : ItemOrder),
          { id := "b", platinum := some 12, order_type := some "sell",
            user := some ⟨some "online"⟩ },
          { id := "c", platinum := some 7, order_type := some "buy",
            user := some ⟨some "ingame"⟩ }] = true
    ∧ (filter_item_orders
        [({ id := "a", platinum := some 12, order_type := some "sell",
            user := some ⟨some "ingame"⟩ } : ItemOrder),
          { id := "b", platinum := some 12, order_type := some "sell",
            user := some ⟨some "online"⟩ },
          { id := "c", platinum := some 7, order_type := some "buy",
            user := some ⟨some "ingame"⟩ }] .sell).1
      = .ok [({ id := "a", platinum := some 12, order_type := some "sell",
                user := some ⟨some "ingame"⟩ } : ItemOrder)] := by
  refine ⟨by decide, ?_⟩
  rw [C5_filter_subsequence _ _ (by decide)]
  rfl

/-! ### Claim C3: malformed orders in the item filter -/

/-- C3 counterexample: an order whose `order_type` matches but whose embedded
user is ABSENT makes `_filter_item_orders` raise, aborting the whole batch —
it is not dropped with a warning. -/
theorem C3_counterexample :
    (filter_item_orders
        [({ id := "a", order_type := some "sell" } : ItemOrder)] .sell).1
      = .error "order a has no user key"
    ∧ ((filter_item_orders
        [({ id := "a", order_type := some "sell" } : ItemOrder)] .sell).1).isOk
      = false :=
  ⟨rfl, rfl⟩

/-- C3 amended: an order with `order_type` absent is rejected with the
invalid-order warning and filtering of the remaining orders continues; but an
order whose `order_type` matches the wanted type and whose embedded user is
absent raises (`order <id> has no user key`), aborting the whole batch. -/
theorem C3_amended (t : OrderType) (o : ItemOrder) (pre post : List ItemOrder)
    (h : o.order_type = none) :
    (filter_item_orders (pre ++ o :: post) t).1
      = (filter_item_orders (pre ++ post) t).1
    ∧ (((filter_item_orders pre t).1).isOk = true →
        LogWarning.invalidOrder o.id ∈ (filter_item_orders (pre ++ o :: post) t).2)
    ∧ (∀ o' : ItemOrder, o'.order_type = some t.value → o'.user = none →
        (filter_item_orders (o' :: post) t).1
          = .error ("order " ++ o'.id ++ " has no user key")) := by
  have hfo : filter_func t o = (.ok false, [.invalidOrder o.id]) := by
    simp [filter_func, h]
  refine ⟨filter_item_orders_skip t o pre post (by rw [hfo]), ?_, ?_⟩
  · intro hpre
    exact filter_item_orders_warn t o pre post _ (by rw [hfo]; simp) hpre
  · intro o' h1 h2
    have hf : filter_func t o'
        = (.error ("order " ++ o'.id ++ " has no user key"), []) := by
      simp [filter_func, remove_non_in_game, h1, h2]
    simp [filter_item_orders, hf]

/-- Witness for C3 amended: a type-less order between well-formed orders is
dropped with its warning, and a seller-less sell order aborts. -/
theorem C3_amended_witness :
    (filter_item_orders
        [({ id := "g", platinum := some 10, order_type := some "sell",
            user := some ⟨some "ingame"⟩ } : ItemOrder),
          { id := "m" }] .sell).1
      = (filter_item_orders
          [({ id := "g", platinum := some 10, order_type := some "sell",
              user := some ⟨some "ingame"⟩ } : ItemOrder)] .sell).1
    ∧ LogWarning.invalidOrder "m" ∈
        (filter_item_orders
          [({ id := "g", platinum := some 10, order_type := some "sell",
              user := some ⟨some "ingame"⟩ } : ItemOrder),
            { id := "m" }] .sell).2
    ∧ (filter_item_orders
        [({ id := "n", order_type := some "sell" } : ItemOrder)] .sell).1
      = .error ("order " ++ "n" ++ " has no user key") := by
  have h := C3_amended .sell ({ id := "m" } : ItemOrder)
      [({ id := "g", platinum := some 10, order_type := some "sell",
          user := some ⟨some "ingame"⟩ } : ItemOrder)] [] rfl
  exact ⟨h.1, h.2.1 rfl, h.2.2 ({ id := "n", order_type := some "sell" } : ItemOrder) rfl rfl⟩

/-! ### Claim C10: unrecognized seller status -/

/-- C10 counterexample: an order with a seller whose status is unrecognized
but whose `order_type` does NOT match the wanted type is excluded WITHOUT any
warning (the status check is never reached), so "excludes and emits a warning"
fails as stated for such orders. -/
theorem C10_counterexample :
    filter_item_orders
        [({ id := "a", order_type := some "buy",
            user := some ⟨some "invisible"⟩ } : ItemOrder)] .sell
      = (.ok [], [])
    ∧ "invisible" ≠ Status.INGAME ∧ "invisible" ≠ Status.ONLINE
    ∧ "invisible" ≠ Status.OFFLINE :=
  ⟨rfl, by decide, by decide, by decide⟩

/-- C10 amended: an order whose seller is present with a status that is none
of `ingame`/`online`/`offline` is always excluded and never raises nor aborts
the rest of the list; the unsupported-status warning is emitted exactly when
its `order_type` matches the wanted type (a non-matching order is dropped
silently, before the status check). -/
theorem C10_amended (t : OrderType) (o : ItemOrder) (u : User) (s : String)
    (pre post : List ItemOrder)
    (hu : o.user = some u) (hs : u.status = some s)
    (h1 : s ≠ Status.INGAME) (h2 : s ≠ Status.ONLINE) (h3 : s ≠ Status.OFFLINE) :
    (filter_item_orders (pre ++ o :: post) t).1
      = (filter_item_orders (pre ++ post) t).1
    ∧ (o.order_type = some t.value → ((filter_item_orders pre t).1).isOk = true →
        LogWarning.unsupportedStatus o.id ∈ (filter_item_orders (pre ++ o :: post) t).2)
    ∧ (∀ t', o.order_type = some t' → t' ≠ t.value →
        filter_func t o = (.ok false, [])) := by
  have hr : remove_non_in_game o = (.ok false, [.unsupportedStatus o.id]) := by
    simp [remove_non_in_game, hu, hs, h1, h2, h3]
  have hok : (filter_func t o).1 = .ok false := by
    rcases ho : o.order_type with _ | ty
    · simp [filter_func, ho]
    · by_cases hty : ty = t.value
      · simp [filter_func, ho, hty, hr]
      · simp [filter_func, ho, hty]
  refine ⟨filter_item_orders_skip t o pre post hok, ?_, ?_⟩
  · intro hot hpre
    refine filter_item_orders_warn t o pre post _ ?_ hpre
    simp [filter_func, hot, hr]
  · intro t' hot hne
    simp [filter_func, hot, hne]

/-- Witness for C10 amended at concrete orders with status `"hidden"`. -/
theorem C10_amended_witness :
    (filter_item_orders
        [({ id := "a", order_type := some "sell",
            user := some ⟨some "hidden"⟩ } : ItemOrder)] .sell).1
      = (filter_item_orders ([] : List ItemOrder) .sell).1
    ∧ LogWarning.unsupportedStatus "a" ∈
        (filter_item_orders
          [({ id := "a", order_type := some "sell",
              user := some ⟨some "hidden"⟩ } : ItemOrder)] .sell).2
    ∧ filter_func .sell
        ({ id := "b", order_type := some "buy",
            user := some ⟨some "hidden"⟩ } : ItemOrder) = (.ok false, []) := by
  have h := C10_amended .sell
      ({ id := "a", order_type := some "sell", user := some ⟨some "hidden"⟩ } : ItemOrder)
      ⟨some "hidden"⟩ "hidden" [] [] rfl rfl (by decide) (by decide) (by decide)
  have hb := C10_amended .sell
      ({ id := "b", order_type := some "buy", user := some ⟨some "hidden"⟩ } : ItemOrder)
      ⟨some "hidden"⟩ "hidden" [] [] rfl rfl (by decide) (by decide) (by decide)
  exact ⟨h.1, h.2.1 rfl rfl, hb.2.2 "buy" rfl (by decide)⟩

end WFMT

namespace WFMT

/-! ### Price-extraction lemmas (shared by C4, C6, C8) -/

lemma collect_prices_fst (orders : List Order) :
    (collect_prices orders).1 = orders.filterMap (·.platinum) := by
  induction orders with
  | nil => simp [collect_prices]
  | cons o rest ih =>
    rcases hp : o.platinum with _ | p <;>
      simp [collect_prices, hp, List.filterMap_cons, ih]

lemma collect_prices_snd (orders : List Order) :
    (collect_prices orders).2
      = (orders.filter (fun o => o.platinum.isNone)).map
          (fun o => LogWarning.noPlatinum o.id) := by
  induction orders with
  | nil => simp [collect_prices]
  | cons o rest ih =>
    rcases hp : o.platinum with _ | p <;>
      simp [collect_prices, hp, List.filter_cons, ih]

/-! ### Claim C6: which platinum values are extracted -/

/-- C6 counterexample: `_get_plat_prices` checks only `type(plat) is int`, so
the NEGATIVE price `-5` is included, refuting the claim that a platinum value
is included iff it is present and non-negative. -/
theorem C6_counterexample :
    (get_plat_prices [({ id := "x", platinum := some (-5) } : Order)] false).1
      = [-5]
    ∧ (-5 : Int) < 0 :=
  ⟨rfl, by decide⟩

/-- C6 amended: `_get_plat_prices` includes an order's platinum value iff the
key is present with an integer value (any sign); every other order is skipped
with exactly one missing-price warning, and a missing platinum never raises —
the output is always the sorted permutation of the present values plus one
warning per platinum-less order. -/
theorem C6_amended (orders : List Order) (sort_descending : Bool) :
    ((get_plat_prices orders sort_descending).1).Perm
      (orders.filterMap (·.platinum))
    ∧ (get_plat_prices orders sort_descending).2
      = (orders.filter (fun o => o.platinum.isNone)).map
          (fun o => LogWarning.noPlatinum o.id) := by
  constructor
  · cases sort_descending <;>
      simpa [get_plat_prices, collect_prices_fst orders] using
        List.perm_insertionSort _ (orders.filterMap (·.platinum))
  · cases sort_descending <;>
      simp [get_plat_prices, collect_prices_snd orders]

/-! ### Claim C8: descending is the reverse of ascending; sorted input fixed -/

/-- C8: for an order list with pairwise-distinct extracted prices, descending
extraction is the exact reverse of ascending extraction; and on a list whose
prices are all present and already ascending, default (ascending) extraction
returns that price sequence unchanged. -/
theorem C8_sort_relations (orders1 orders2 : List Order)
    (h1 : ((collect_prices orders1).1).Nodup)
    (h2 : ∀ o ∈ orders2, o.platinum.isSome = true)
    (h3 : List.Sorted (· ≤ ·) (orders2.filterMap (·.platinum))) :
    (get_plat_prices orders1 true).1 = ((get_plat_prices orders1 false).1).reverse
    ∧ (get_plat_prices orders2 false).1 = orders2.filterMap (·.platinum) := by
  constructor
  · have hperm : (List.insertionSort (α := Int) (· ≥ ·) (collect_prices orders1).1).Perm
        ((List.insertionSort (α := Int) (· ≤ ·) (collect_prices orders1).1).reverse) :=
      (List.perm_insertionSort _ _).trans
        ((List.perm_insertionSort _ _).symm.trans (List.reverse_perm _).symm)
    have hs1 : List.Sorted (α := Int) (· ≥ ·)
        (List.insertionSort (· ≥ ·) (collect_prices orders1).1) :=
      List.sorted_insertionSort _ _
    have hs2 : List.Sorted (α := Int) (· ≥ ·)
        ((List.insertionSort (· ≤ ·) (collect_prices orders1).1).reverse) := by
      rw [List.Sorted, List.pairwise_reverse]
      simpa [ge_iff_le] using
        List.sorted_insertionSort (α := Int) (· ≤ ·) (collect_prices orders1).1
    simpa [get_plat_prices] using List.eq_of_perm_of_sorted hperm hs1 hs2
  · have hcf := collect_prices_fst orders2
    have : List.insertionSort (α := Int) (· ≤ ·) (collect_prices orders2).1
        = (collect_prices orders2).1 := by
      rw [hcf]
      exact h3.insertionSort_eq
    simpa [get_plat_prices, hcf] using this

/-- Witness for C8 at concrete order lists with distinct and sorted prices. -/
theorem C8_sort_relations_witness :
    ((collect_prices [({ id := "a", platinum := some 3 } : Order),
        { id := "b", platinum := some 1 }, { id := "c", platinum := some 2 }]).1).Nodup
    ∧ (∀ o ∈ [({ id := "d", platinum := some 1 } : Order),
        { id := "e", platinum := some 2 }, { id := "f", platinum := some 3 }],
        o.platinum.isSome = true)
    ∧ List.Sorted (· ≤ ·)
        ([({ id := "d", platinum := some 1 } : Order),
          { id := "e", platinum := some 2 },
          { id := "f", platinum := some 3 }].filterMap (·.platinum))
    ∧ (get_plat_prices [({ id := "a", platinum := some 3 } : Order),
        { id := "b", platinum := some 1 }, { id := "c", platinum := some 2 }] true).1
      = ((get_plat_prices [({ id := "a", platinum := some 3 } : Order),
        { id := "b", platinum := some 1 }, { id := "c", platinum := some 2 }] false).1).reverse
    ∧ (get_plat_prices [({ id := "d", platinum := some 1 } : Order),
        { id := "e", platinum := some 2 }, { id := "f", platinum := some 3 }] false).1
      = [({ id := "d", platinum := some 1 } : Order),
          { id := "e", platinum := some 2 },
          { id := "f", platinum := some 3 }].filterMap (·.platinum) := by
  have h := C8_sort_relations
      [({ id := "a", platinum := some 3 } : Order),
        { id := "b", platinum := some 1 }, { id := "c", platinum := some 2 }]
      [({ id := "d", platinum := some 1 } : Order),
        { id := "e", platinum := some 2 }, { id := "f", platinum := some 3 }]
      (by decide) (by decide) (by decide)
  exact ⟨by decide, by decide, by decide, h.1, h.2⟩

end WFMT

namespace WFMT

/-! ### Claim C4: the floor-price pipeline -/

/-- C4 counterexample: with a single sell order that has no embedded seller,
no order qualifies (the order fails `keeps`), yet `get_item_floor_prices`
raises instead of returning an empty price list. -/
theorem C4_counterexample :
    ([({ id := "a", platinum := some 5, order_type := some "sell" } : ItemOrder)].filter
        (keeps .sell)) = []
    ∧ (get_item_floor_prices
        (mk_item_resp
          [({ id := "a", platinum := some 5, order_type := some "sell" } : ItemOrder)])
        "x" 3).1
      = .error "order a has no user key"
    ∧ ((get_item_floor_prices
        (mk_item_resp
          [({ id := "a", platinum := some 5, order_type := some "sell" } : ItemOrder)])
        "x" 3).1).isOk = false :=
  ⟨rfl, rfl, rfl⟩

/-- C4 amended: provided the fetched orders are well formed for the sell
filter (each sell-typed order carries a seller with a status, so filtering
cannot raise), `get_item_floor_prices` returns the first `n` entries of the
ascending extracted price list of the filtered sell orders — of length
`min n total`, hence fewer than `n` when fewer exist — with the item name
preserved, and an empty (non-error) price list when no order qualifies. -/
theorem C4_amended (orders : List ItemOrder) (name : String) (n : Nat)
    (h : well_formed_for_filter OrderType.sell orders = true) :
    (get_item_floor_prices (mk_item_resp orders) name n).1
      = .ok ⟨name, (sorted_sell_prices orders).take n⟩
    ∧ ((sorted_sell_prices orders).take n).length
      = min n (sorted_sell_prices orders).length
    ∧ (orders.filter (keeps .sell) = [] →
        (get_item_floor_prices (mk_item_resp orders) name n).1 = .ok ⟨name, []⟩) := by
  have hfil := filter_item_orders_wf .sell orders h
  rcases hr : filter_item_orders orders .sell with ⟨r1, ws⟩
  rw [hr] at hfil
  simp only at hfil
  subst hfil
  have hmain : (get_item_floor_prices (mk_item_resp orders) name n).1
      = .ok ⟨name, (sorted_sell_prices orders).take n⟩ := by
    simp [get_item_floor_prices, get_item_orders, get_payload, mk_item_resp,
      hr, get_plat_prices, collect_prices_fst, sorted_sell_prices]
  refine ⟨hmain, by simp [List.length_take], ?_⟩
  intro hempty
  rw [hmain]
  simp [sorted_sell_prices, hempty]

/-- Witness for C4 amended: the spec scenario — in-game sell orders priced
45, 30, 60, 30, 90 with `n = 3` yield prices 30, 30, 45 for
`catalyzing_shields`. -/
theorem C4_amended_witness :
    well_formed_for_filter OrderType.sell
        [({ id := "o1", platinum := some 45, order_type := some "sell", user := some ⟨some "ingame"⟩ } : ItemOrder),
          { id := "o2", platinum := some 30, order_type := some "sell", user := some ⟨some "ingame"⟩ },
          { id := "o3", platinum := some 60, order_type := some "sell", user := some ⟨some "ingame"⟩ },
          { id := "o4", platinum := some 30, order_type := some "sell", user := some ⟨some "ingame"⟩ },
          { id := "o5", platinum := some 90, order_type := some "sell", user := some ⟨some "ingame"⟩ }] = true
    ∧ (get_item_floor_prices
        (mk_item_resp
          [({ id := "o1", platinum := some 45, order_type := some "sell", user := some ⟨some "ingame"⟩ } : ItemOrder),
            { id := "o2", platinum := some 30, order_type := some "sell", user := some ⟨some "ingame"⟩ },
            { id := "o3", platinum := some 60, order_type := some "sell", user := some ⟨some "ingame"⟩ },
            { id := "o4", platinum := some 30, order_type := some "sell", user := some ⟨some "ingame"⟩ },
            { id := "o5", platinum := some 90, order_type := some "sell", user := some ⟨some "ingame"⟩ }])
        "catalyzing_shields" 3).1
      = .ok ⟨"catalyzing_shields", [30, 30, 45]⟩ := by
  refine ⟨by decide, ?_⟩
  rw [(C4_amended _ "catalyzing_shields" 3 (by decide)).1]
  rfl

end WFMT

namespace WFMT

/-! ### Claim C9: profile-order integrity in the optimizer -/

lemma verify_loop_err (item_responses : String → HttpResponse) (n : Nat)
    (l : List ProfileOrder) (h : l.any (fun o => o.item.isNone) = true) :
    ((verify_loop item_responses n l).1).isOk = false := by
  induction l with
  | nil => simp at h
  | cons o rest ih =>
    rcases hi : o.item with _ | it
    · simp [verify_loop, hi, Except.isOk, Except.toBool]
    · have hrest : rest.any (fun o => o.item.isNone) = true := by
        simpa [hi] using h
      rcases hf : get_item_floor_prices (item_responses it.url_name) it.url_name n
        with ⟨f1, ws⟩
      cases f1 with
      | error e => simp [verify_loop, hi, hf, Except.isOk, Except.toBool]
      | ok fpr =>
        rcases hp : o.platinum with _ | p
        · simp [verify_loop, hi, hf, hp, Except.isOk, Except.toBool]
        · have hr := ih hrest
          rcases hv : verify_loop item_responses n rest with ⟨r1, w1⟩
          rw [hv] at hr
          cases r1 with
          | error e => simp [verify_loop, hi, hf, hp, hv, Except.isOk, Except.toBool]
          | ok rs => simp [Except.isOk, Except.toBool] at hr

lemma verify_loop_ok (item_responses : String → HttpResponse) (n : Nat)
    (l : List ProfileOrder) (h : l.all (item_fetch_ok item_responses n) = true) :
    (verify_loop item_responses n l).1
      = .ok (l.map (result_for item_responses n)) := by
  induction l with
  | nil => simp [verify_loop]
  | cons o rest ih =>
    rw [List.all_cons, Bool.and_eq_true] at h
    obtain ⟨h1, h2⟩ := h
    rcases hi : o.item with _ | it
    · simp [item_fetch_ok, hi] at h1
    · rcases hp : o.platinum with _ | p
      · simp [item_fetch_ok, hi, hp] at h1
      · simp only [item_fetch_ok, hi, hp] at h1
        rcases hf : get_item_floor_prices (item_responses it.url_name) it.url_name n
          with ⟨f1, ws⟩
        cases f1 with
        | error e =>
          rw [floor_prices_of, hf] at h1
          simp [Except.map, Except.isOk, Except.toBool] at h1
        | ok fpr =>
          have hih := ih h2
          rcases hv : verify_loop item_responses n rest with ⟨r1, w1⟩
          rw [hv] at hih
          simp only at hih
          subst hih
          have hres : result_for item_responses n o
              = ⟨it.url_name, p, fpr.prices⟩ := by
            simp [result_for, hi, hp, floor_prices_of, hf, Except.map, Except.toOption]
          simp [verify_loop, hi, hf, hp, hv, hres]

/-- C9: for every profile-optimization call, if any processed profile order
(after the visibility filter) has no embedded item, the call fails with the
raised error — no result list is returned; and when every processed order
carries an item and a listed platinum price (required by the pydantic result
model, which raises a `ValidationError` on a missing price) and its
floor-price fetch succeeds, the call returns exactly one result per order,
pairing the seller's listed price (`platinum`) with that item's floor
prices. -/
theorem C9_profile_integrity (profile_resp : HttpResponse)
    (item_responses : String → HttpResponse) (t : OrderType) (n : Nat) (v : Bool) :
    ((processed_profile_orders profile_resp t v).any (fun o => o.item.isNone) = true →
      ((verify_profile_orders_prices profile_resp item_responses t n v).1).isOk
        = false)
    ∧ ((processed_profile_orders profile_resp t v).all
          (item_fetch_ok item_responses n) = true →
      (verify_profile_orders_prices profile_resp item_responses t n v).1
        = .ok ((processed_profile_orders profile_resp t v).map
            (result_for item_responses n))) := by
  have hv : (verify_profile_orders_prices profile_resp item_responses t n v).1
      = (verify_loop item_responses n
          (processed_profile_orders profile_resp t v)).1 := by
    rcases hg : get_profile_orders profile_resp t with ⟨po, ws0⟩
    simp [verify_profile_orders_prices, processed_profile_orders, hg]
  constructor
  · intro h
    rw [hv]
    exact verify_loop_err _ _ _ h
  · intro h
    rw [hv]
    exact verify_loop_ok _ _ _ h

/-- Witness for C9: the spec scenario — one visible sell order on
`blind_rage` listed at 25 against market floor `[20, 22, 25, 28, 30]` yields
exactly one paired result; and a profile order with no item reference makes
the call fail. -/
theorem C9_profile_integrity_witness :
    (processed_profile_orders (⟨200, some ⟨some { sell_orders := some [{ id := "p1", platinum := some 25, visible := some true, item := some ⟨"blind_rage"⟩ }] }⟩⟩ : HttpResponse) .sell true).all (item_fetch_ok (fun _ => (⟨200, some ⟨some { orders := some [({ id := "b1", platinum := some 20, order_type := some "sell", user := some ⟨some "ingame"⟩ } : ItemOrder), { id := "b2", platinum := some 22, order_type := some "sell", user := some ⟨some "ingame"⟩ }, { id := "b3", platinum := some 25, order_type := some "sell", user := some ⟨some "ingame"⟩ }, { id := "b4", platinum := some 28, order_type := some "sell", user := some ⟨some "ingame"⟩ }, { id := "b5", platinum := some 30, order_type := some "sell", user := some ⟨some "ingame"⟩ }] }⟩⟩ : HttpResponse)) 5) = true
    ∧ (verify_profile_orders_prices (⟨200, some ⟨some { sell_orders := some [{ id := "p1", platinum := some 25, visible := some true, item := some ⟨"blind_rage"⟩ }] }⟩⟩ : HttpResponse) (fun _ => (⟨200, some ⟨some { orders := some [({ id := "b1", platinum := some 20, order_type := some "sell", user := some ⟨some "ingame"⟩ } : ItemOrder), { id := "b2", platinum := some 22, order_type := some "sell", user := some ⟨some "ingame"⟩ }, { id := "b3", platinum := some 25, order_type := some "sell", user := some ⟨some "ingame"⟩ }, { id := "b4", platinum := some 28, order_type := some "sell", user := some ⟨some "ingame"⟩ }, { id := "b5", platinum := some 30, order_type := some "sell", user := some ⟨some "ingame"⟩ }] }⟩⟩ : HttpResponse)) .sell 5 true).1
      = .ok [⟨"blind_rage", 25, [20, 22, 25, 28, 30]⟩]
    ∧ (processed_profile_orders (⟨200, some ⟨some { sell_orders := some [{ id := "p2", platinum := some 9, visible := some true }] }⟩⟩ : HttpResponse) .sell true).any (fun o => o.item.isNone) = true
    ∧ ((verify_profile_orders_prices (⟨200, some ⟨some { sell_orders := some [{ id := "p2", platinum := some 9, visible := some true }] }⟩⟩ : HttpResponse) (fun _ => (⟨200, some ⟨some { orders := some [({ id := "b1", platinum := some 20, order_type := some "sell", user := some ⟨some "ingame"⟩ } : ItemOrder), { id := "b2", platinum := some 22, order_type := some "sell", user := some ⟨some "ingame"⟩ }, { id := "b3", platinum := some 25, order_type := some "sell", user := some ⟨some "ingame"⟩ }, { id := "b4", platinum := some 28, order_type := some "sell", user := some ⟨some "ingame"⟩ }, { id := "b5", platinum := some 30, order_type := some "sell", user := some ⟨some "ingame"⟩ }] }⟩⟩ : HttpResponse)) .sell 5 true).1).isOk = false := by
  refine ⟨by decide, ?_, by decide, ?_⟩
  · rw [(C9_profile_integrity (⟨200, some ⟨some { sell_orders := some [{ id := "p1", platinum := some 25, visible := some true, item := some ⟨"blind_rage"⟩ }] }⟩⟩ : HttpResponse) (fun _ => (⟨200, some ⟨some { orders := some [({ id := "b1", platinum := some 20, order_type := some "sell", user := some ⟨some "ingame"⟩ } : ItemOrder), { id := "b2", platinum := some 22, order_type := some "sell", user := some ⟨some "ingame"⟩ }, { id := "b3", platinum := some 25, order_type := some "sell", user := some ⟨some "ingame"⟩ }, { id := "b4", platinum := some 28, order_type := some "sell", user := some ⟨some "ingame"⟩ }, { id := "b5", platinum := some 30, order_type := some "sell", user := some ⟨some "ingame"⟩ }] }⟩⟩ : HttpResponse)) .sell 5 true).2 (by decide)]
    rfl
  · exact (C9_profile_integrity (⟨200, some ⟨some { sell_orders := some [{ id := "p2", platinum := some 9, visible := some true }] }⟩⟩ : HttpResponse) (fun _ => (⟨200, some ⟨some { orders := some [({ id := "b1", platinum := some 20, order_type := some "sell", user := some ⟨some "ingame"⟩ } : ItemOrder), { id := "b2", platinum := some 22, order_type := some "sell", user := some ⟨some "ingame"⟩ }, { id := "b3", platinum := some 25, order_type := some "sell", user := some ⟨some "ingame"⟩ }, { id := "b4", platinum := some 28, order_type := some "sell", user := some ⟨some "ingame"⟩ }, { id := "b5", platinum := some 30, order_type := some "sell", user := some ⟨some "ingame"⟩ }] }⟩⟩ : HttpResponse)) .sell 5 true).1 (by decide)

end WFMT
